import Mathlib

/-!
Verification of the osu-performance pp processor against its specification.

The C++ sources are shallowly embedded:
* `src/src/performance/taiko/TaikoScore.cpp` — the Taiko score model
  (`TaikoScore` namespace below); 32-bit float arithmetic is embedded as
  exact arithmetic over `ℚ`/`ℝ`, with `std::pow` embedded as `Real.rpow`.
* `src/Src/Processor/Processor.cpp` — the per-user pipeline
  (`ProcessSingleUser`), the score poller (`PollAndProcessNewScores`) and
  the full-reprocessing driver (`ProcessAllUsers`), embedded as pure
  functions over explicit inputs (database query results become lists,
  the beatmap cache and the lazy-load query become functions to `Option`).
-/

/-- Mods bitmask. `EMods` bit values live in a header outside the sources;
every test the embedded code performs is a bit-presence test, so the mask is
embedded as one presence flag per bit the code inspects. -/
structure EMods where
  relax : Bool
  relax2 : Bool
  autoplay : Bool
  hidden : Bool
  easy : Bool
  flashlight : Bool
deriving DecidableEq

/-- The mask with none of the inspected bits set. -/
def EMods.none : EMods := ⟨false, false, false, false, false, false⟩

/-- Difficulty attributes read by the Taiko score model
(`Beatmap::Strain`, `Beatmap::HitWindow300`). -/
inductive Attrib where
  | Strain
  | HitWindow300
deriving DecidableEq

/-- Beatmap data consumed by the embedded code: ranked status, score
version, hit-circle count, and the per-mods pre-computed difficulty
attributes (`CBeatmap::DifficultyAttribute`). -/
structure Beatmap where
  rankedStatus : ℤ
  scoreVersion : ℤ
  numHitCircles : ℤ
  attrib : EMods → Attrib → ℝ

/-- A Taiko score's inputs: the hit counts and mods used by
`TaikoScore.cpp` (remaining constructor arguments are stored but unused by
the Taiko formulas). -/
structure TaikoScore where
  num300 : ℤ
  num100 : ℤ
  num50 : ℤ
  numMiss : ℤ
  mods : EMods

namespace TaikoScore

/-- Embeds `TaikoScore::TotalHits`: `_num50 + _num100 + _num300 + _numMiss`. -/
def TotalHits (s : TaikoScore) : ℤ :=
  s.num50 + s.num100 + s.num300 + s.numMiss

/-- Embeds `TaikoScore::TotalSuccessfulHits`: `_num50 + _num100 + _num300`. -/
def TotalSuccessfulHits (s : TaikoScore) : ℤ :=
  s.num50 + s.num100 + s.num300

/-- Modelled from the spec: `Clamp` comes from a header outside the
sources; the spec's accuracy formula reads
`clamp((n100·150 + n300·300) / (total_hits·300), 0, 1)`, the usual clamp
of a value to an interval. -/
def Clamp (x lo hi : ℚ) : ℚ := min (max x lo) hi

/-- Embeds `TaikoScore::Accuracy`: `0` when `TotalHits() == 0`, otherwise
`Clamp((num100·150 + num300·300) / (TotalHits()·300), 0, 1)`. -/
def Accuracy (s : TaikoScore) : ℚ :=
  if TotalHits s = 0 then 0
  else Clamp (((s.num100 * 150 + s.num300 * 300 : ℤ) : ℚ) / (((TotalHits s : ℤ) : ℚ) * 300)) 0 1

/-- Embeds `TaikoScore::computeDifficultyValue`, value of the `_difficultyValue`
field after construction. -/
noncomputable def difficultyValue (s : TaikoScore) (b : Beatmap) : ℝ :=
  let base : ℝ := (5 * max 1 (b.attrib s.mods Attrib.Strain / 0.115) - 4) ^ (2.25 : ℝ) / 1150
  let lengthBonus : ℝ := 1 + 0.1 * min 1 ((TotalHits s : ℝ) / 1500)
  let v1 := base * lengthBonus
  let v2 := v1 * (0.986 : ℝ) ^ s.numMiss
  let v3 := if s.mods.easy then v2 * 0.980 else v2
  let v4 := if s.mods.hidden then v3 * 1.025 else v3
  let v5 := if s.mods.flashlight then v4 * (1.05 * lengthBonus) else v4
  v5 * ((Accuracy s : ℝ)) ^ (1.5 : ℝ)

/-- Embeds `TaikoScore::computeAccuracyValue`, value of the `_accuracyValue`
field after construction. -/
noncomputable def accuracyValue (s : TaikoScore) (b : Beatmap) : ℝ :=
  let hitWindow300 := b.attrib s.mods Attrib.HitWindow300
  if hitWindow300 ≤ 0 then 0
  else
    let base : ℝ := (140 / hitWindow300) ^ (1.1 : ℝ) * ((Accuracy s : ℝ)) ^ (12 : ℝ) * 27
    let lengthBonus : ℝ := min 1.15 (((TotalHits s : ℝ) / 1500) ^ (0.3 : ℝ))
    let v := base * lengthBonus
    if s.mods.hidden && s.mods.flashlight then v * (1.10 * lengthBonus) else v

/-- Embeds `TaikoScore::computeTotalValue`, value of the `_totalValue` field
returned by `TaikoScore::TotalValue`. -/
noncomputable def TotalValue (s : TaikoScore) (b : Beatmap) : ℝ :=
  if s.mods.relax || s.mods.relax2 || s.mods.autoplay then 0
  else
    let m1 : ℝ := 1.12
    let m2 := if s.mods.hidden then m1 * 1.075 else m1
    let m3 := if s.mods.easy then m2 * 0.975 else m2
    (difficultyValue s b ^ (1.1 : ℝ) + accuracyValue s b ^ (1.1 : ℝ)) ^ ((1 : ℝ) / 1.1) * m3

end TaikoScore

/-- A sample beatmap whose every difficulty attribute is `0`. -/
def sampleBeatmap : Beatmap := ⟨1, 1, 0, fun _ _ => 0⟩

/-- Sample Taiko score without mods (the spec's S1 hit counts). -/
def sampleScore : TaikoScore := ⟨1400, 90, 0, 10, EMods.none⟩

/-- Sample Taiko score with the Relax bit set. -/
def relaxScore : TaikoScore :=
  ⟨1400, 90, 0, 10, ⟨true, false, false, false, false, false⟩⟩

/-- Sample Taiko score with all hit counts zero. -/
def emptyScore : TaikoScore := ⟨0, 0, 0, 0, EMods.none⟩

/-- Claim C1: for every Taiko score whose mods contain Relax, Relax2 or
Autoplay, `TotalValue()` is `0`, regardless of hit counts and beatmap
attributes. -/
theorem taiko_disqualified_mods_zero (s : TaikoScore) (b : Beatmap)
    (h : s.mods.relax = true ∨ s.mods.relax2 = true ∨ s.mods.autoplay = true) :
    TaikoScore.TotalValue s b = 0 := by
  unfold TaikoScore.TotalValue
  rcases h with h | h | h <;> simp [h]

/-- Witness for C1: the Relax sample score evaluates to total value `0`. -/
theorem taiko_disqualified_mods_zero_witness :
    TaikoScore.TotalValue relaxScore sampleBeatmap = 0 :=
  taiko_disqualified_mods_zero relaxScore sampleBeatmap (Or.inl rfl)

/-- Claim C2: Taiko `Accuracy()` is `0` when `TotalHits() == 0`, otherwise
equals `clamp((n100·150 + n300·300)/(TotalHits()·300), 0, 1)`; consequently
it always lies in `[0, 1]`. -/
theorem taiko_accuracy_clamped (s : TaikoScore) :
    (TaikoScore.TotalHits s = 0 → TaikoScore.Accuracy s = 0) ∧
    (TaikoScore.TotalHits s ≠ 0 →
      TaikoScore.Accuracy s =
        TaikoScore.Clamp
          (((s.num100 * 150 + s.num300 * 300 : ℤ) : ℚ) /
            (((TaikoScore.TotalHits s : ℤ) : ℚ) * 300)) 0 1) ∧
    0 ≤ TaikoScore.Accuracy s ∧ TaikoScore.Accuracy s ≤ 1 := by
  refine ⟨fun h => by simp [TaikoScore.Accuracy, h],
          fun h => by simp [TaikoScore.Accuracy, h], ?_, ?_⟩
  · by_cases h : TaikoScore.TotalHits s = 0
    · simp [TaikoScore.Accuracy, h]
    · simp only [TaikoScore.Accuracy, h, if_false, TaikoScore.Clamp]
      exact le_min (le_max_right _ _) zero_le_one
  · by_cases h : TaikoScore.TotalHits s = 0
    · simp [TaikoScore.Accuracy, h]
    · simp only [TaikoScore.Accuracy, h, if_false, TaikoScore.Clamp]
      exact min_le_right _ _

/-- Witness for C2: concrete evaluations — the empty score has accuracy
`0`, and the S1 sample score's accuracy is the clamped ratio and lies in
`[0, 1]`. -/
theorem taiko_accuracy_clamped_witness :
    TaikoScore.Accuracy emptyScore = 0 ∧
    TaikoScore.Accuracy sampleScore =
      TaikoScore.Clamp
        (((sampleScore.num100 * 150 + sampleScore.num300 * 300 : ℤ) : ℚ) /
          (((TaikoScore.TotalHits sampleScore : ℤ) : ℚ) * 300)) 0 1 ∧
    0 ≤ TaikoScore.Accuracy sampleScore ∧ TaikoScore.Accuracy sampleScore ≤ 1 :=
  ⟨(taiko_accuracy_clamped emptyScore).1 (by decide),
   (taiko_accuracy_clamped sampleScore).2.1 (by decide),
   (taiko_accuracy_clamped sampleScore).2.2.1,
   (taiko_accuracy_clamped sampleScore).2.2.2⟩

/-- Claim C3: without a disqualifying mod, Taiko `TotalValue()` is
`(d^1.1 + acc^1.1)^(1/1.1)` times a multiplier of `1.12`, scaled by
`1.075` under Hidden and `0.975` under Easy; and the accuracy component is
`0` whenever the beatmap's `HitWindow300` attribute is `≤ 0`. -/
theorem taiko_total_formula (s : TaikoScore) (b : Beatmap) :
    (¬(s.mods.relax = true ∨ s.mods.relax2 = true ∨ s.mods.autoplay = true) →
      TaikoScore.TotalValue s b =
        (TaikoScore.difficultyValue s b ^ (1.1 : ℝ) +
          TaikoScore.accuracyValue s b ^ (1.1 : ℝ)) ^ ((1 : ℝ) / 1.1) *
        (1.12 * (if s.mods.hidden then 1.075 else 1) *
          (if s.mods.easy then 0.975 else 1))) ∧
    (b.attrib s.mods Attrib.HitWindow300 ≤ 0 →
      TaikoScore.accuracyValue s b = 0) := by
  constructor
  · intro h
    push_neg at h
    obtain ⟨h1, h2, h3⟩ := h
    simp only [Bool.not_eq_true] at h1 h2 h3
    unfold TaikoScore.TotalValue
    simp only [h1, h2, h3, Bool.or_self, Bool.false_or, if_false]
    cases hh : s.mods.hidden <;> cases he : s.mods.easy <;> simp [hh, he]
  · intro h
    unfold TaikoScore.accuracyValue
    simp [h]

/-- Witness for C3: the no-mods S1 sample score on the all-zero-attribute
beatmap satisfies both parts of the formula claim. -/
theorem taiko_total_formula_witness :
    TaikoScore.TotalValue sampleScore sampleBeatmap =
      (TaikoScore.difficultyValue sampleScore sampleBeatmap ^ (1.1 : ℝ) +
        TaikoScore.accuracyValue sampleScore sampleBeatmap ^ (1.1 : ℝ)) ^ ((1 : ℝ) / 1.1) *
      (1.12 * (if sampleScore.mods.hidden then 1.075 else 1) *
        (if sampleScore.mods.easy then 0.975 else 1)) ∧
    TaikoScore.accuracyValue sampleScore sampleBeatmap = 0 :=
  ⟨(taiko_total_formula sampleScore sampleBeatmap).1 (by decide),
   (taiko_total_formula sampleScore sampleBeatmap).2 (le_refl 0)⟩

/-!
Per-user pipeline: `CProcessor::ProcessSingleUser` (Processor.cpp).
A queried score row, the processor environment (blacklist, beatmap cache,
lazy-load query, ranked-status window), and the per-row control flow.
The per-mode pp computation dispatched through `CProcessor::NewScore` is a
parameter `computePP` of the pipeline functions.
-/

/-- One row of the `osu_scores<suffix>_high` query in `ProcessSingleUser`:
ids, hit counts, mods and the stored `pp` column (`none` when NULL). -/
structure ScoreRow where
  scoreId : ℤ
  userId : ℤ
  beatmapId : ℤ
  score : ℤ
  maxCombo : ℤ
  num300 : ℤ
  num100 : ℤ
  num50 : ℤ
  numMiss : ℤ
  numGeki : ℤ
  numKatu : ℤ
  mods : EMods
  storedPP : Option ℚ

/-- The processor state read by `ProcessSingleUser`:
`_blacklistedBeatmapIds`, the beatmap cache `_beatmaps`, the lazy
`QueryBeatmapDifficulty(beatmapId)` load (as the cache lookup it would
leave behind), and the `s_minRankedStatus`/`s_maxRankedStatus` window. -/
structure Env where
  blacklist : List ℤ
  cache : ℤ → Option Beatmap
  dbLoad : ℤ → Option Beatmap
  minRankedStatus : ℤ
  maxRankedStatus : ℤ

/-- Beatmap lookup as `ProcessSingleUser` performs it: consult the cache;
on a miss run the lazy load and re-check. -/
def lookupBeatmap (env : Env) (beatmapId : ℤ) : Option Beatmap :=
  match env.cache beatmapId with
  | some b => some b
  | none => env.dbLoad beatmapId

/-- Inner guard of the update decision:
`res.IsNull(12) || fabs(res.F32(12) - pScore->TotalValue()) > 0.001f`. -/
def ppDiffersEnough (storedPP : Option ℚ) (newPP : ℚ) : Bool :=
  match storedPP with
  | Option.none => true
  | some p => decide ((1 : ℚ) / 1000 < |p - newPP|)

/-- The update decision of `ProcessSingleUser` for one processed score:
`(IsNull(12) || selectedScoreId == 0 || selectedScoreId == scoreId)` and
then `ppDiffersEnough`. -/
def scoreNeedsUpdate (storedPP : Option ℚ) (selectedScoreId scoreId : ℤ) (newPP : ℚ) : Bool :=
  if storedPP.isNone || selectedScoreId == 0 || selectedScoreId == scoreId then
    ppDiffersEnough storedPP newPP
  else
    false

/-- Per-row behaviour of the `ProcessSingleUser` loop: skips return
`none`; otherwise the computed pp together with the update decision. -/
def processRow (env : Env) (computePP : ScoreRow → Beatmap → ℚ)
    (selectedScoreId : ℤ) (r : ScoreRow) : Option (ℚ × Bool) :=
  if r.beatmapId ∈ env.blacklist then none
  else
    match lookupBeatmap env r.beatmapId with
    | none => none
    | some b =>
      if b.rankedStatus < env.minRankedStatus ∨ env.maxRankedStatus < b.rankedStatus then none
      else
        let pp := computePP r b
        some (pp, scoreNeedsUpdate r.storedPP selectedScoreId r.scoreId pp)

/-- The pp records fed into the user aggregate
(`user.AddScorePPRecord`), one per non-skipped row. -/
def userRecords (env : Env) (computePP : ScoreRow → Beatmap → ℚ)
    (selectedScoreId : ℤ) (rows : List ScoreRow) : List ℚ :=
  rows.filterMap (fun r => (processRow env computePP selectedScoreId r).map Prod.fst)

/-- The scores collected in `scoresThatNeedDBUpdate` and appended to the
score batch, as `(scoreId, new pp)` pairs. -/
def stagedUpdates (env : Env) (computePP : ScoreRow → Beatmap → ℚ)
    (selectedScoreId : ℤ) (rows : List ScoreRow) : List (ℤ × ℚ) :=
  rows.filterMap (fun r =>
    match processRow env computePP selectedScoreId r with
    | some (pp, true) => some (r.scoreId, pp)
    | _ => none)

/-- Embeds `s_notableEventRatingThreshold = 1.0f / 21.5f`. -/
def s_notableEventRatingThreshold : ℚ := 1 / 21.5

/-- Embeds `s_notableEventRatingDifferenceMinimum = 5.0f`. -/
def s_notableEventRatingDifferenceMinimum : ℚ := 5

/-- The notable-event branch of `ProcessSingleUser`: given the selected
score id, the pp values of the scores needing an update, the freshly
aggregated user pp and the single `osu_user_stats` row for this user
(`none` when no row came back, `some none` when its pp column is NULL),
the `performance_change` value inserted, if any. -/
def notableInsert (selectedScoreId : ℤ) (updates : List ℚ) (userPP : ℚ)
    (prevRow : Option (Option ℚ)) : Option ℚ :=
  match updates with
  | [] => none
  | frontPP :: _ =>
    if 0 < selectedScoreId ∧ userPP * s_notableEventRatingThreshold < frontPP then
      match prevRow with
      | some (some p) =>
        if userPP - p < s_notableEventRatingDifferenceMinimum then none
        else some (userPP - p)
      | _ => none
    else none

/-- Claim C4: a processed score's UPDATE is staged iff (stored pp is null,
or `selectedScoreId = 0`, or `selectedScoreId` is this score's id) and
(stored pp is null, or the stored and new pp differ by more than
`0.001`). -/
theorem score_update_criterion (env : Env) (computePP : ScoreRow → Beatmap → ℚ)
    (selectedScoreId : ℤ) (r : ScoreRow) (pp : ℚ) (nu : Bool)
    (h : processRow env computePP selectedScoreId r = some (pp, nu)) :
    nu = true ↔
      ((r.storedPP = Option.none ∨ selectedScoreId = 0 ∨ selectedScoreId = r.scoreId) ∧
       (r.storedPP = Option.none ∨ ∃ p, r.storedPP = some p ∧ (1 : ℚ) / 1000 < |p - pp|)) := by
  have hnu : nu = scoreNeedsUpdate r.storedPP selectedScoreId r.scoreId pp := by
    unfold processRow at h
    by_cases hb : r.beatmapId ∈ env.blacklist
    · simp [hb] at h
    · simp only [hb, if_false] at h
      rcases hm : lookupBeatmap env r.beatmapId with _ | b
      · rw [hm] at h; simp at h
      · rw [hm] at h
        simp only [] at h
        by_cases hr : b.rankedStatus < env.minRankedStatus ∨ env.maxRankedStatus < b.rankedStatus
        · simp [hr] at h
        · simp only [hr, if_false, Option.some.injEq, Prod.mk.injEq] at h
          rw [← h.1]
          exact h.2.symm
  subst hnu
  unfold scoreNeedsUpdate ppDiffersEnough
  rcases r.storedPP with _ | p
  · simp
  · simp only [Option.isNone_some, Bool.false_or, Option.some.injEq, reduceCtorEq]
    by_cases h0 : selectedScoreId = 0 <;> by_cases hs : selectedScoreId = r.scoreId <;>
      simp [h0, hs, decide_eq_true_iff]

/-- Witness for C4: a concrete environment and row on which the update
decision evaluates and matches the criterion. -/
theorem score_update_criterion_witness :
    (true = true ↔
      (((⟨7, 1, 5, 0, 0, 0, 0, 0, 0, 0, 0, EMods.none, Option.none⟩ : ScoreRow).storedPP = Option.none ∨
        (7 : ℤ) = 0 ∨ (7 : ℤ) = (⟨7, 1, 5, 0, 0, 0, 0, 0, 0, 0, 0, EMods.none, Option.none⟩ : ScoreRow).scoreId) ∧
       ((⟨7, 1, 5, 0, 0, 0, 0, 0, 0, 0, 0, EMods.none, Option.none⟩ : ScoreRow).storedPP = Option.none ∨
        ∃ p, (⟨7, 1, 5, 0, 0, 0, 0, 0, 0, 0, 0, EMods.none, Option.none⟩ : ScoreRow).storedPP = some p ∧
          (1 : ℚ) / 1000 < |p - 0|))) :=
  score_update_criterion
    ⟨[], fun _ => some sampleBeatmap, fun _ => Option.none, 1, 2⟩
    (fun _ _ => 0) 7
    ⟨7, 1, 5, 0, 0, 0, 0, 0, 0, 0, 0, EMods.none, Option.none⟩ 0 true rfl

/-- Claim C5: a performance-change row is inserted iff the selected score
id is positive, some score needed an update, the first such score's pp
exceeds the new user pp times `1/21.5`, the previously stored user pp is
non-null, and the new user pp exceeds it by at least `5`; the inserted
value is exactly that difference. -/
theorem notable_event_criterion (selectedScoreId : ℤ) (updates : List ℚ)
    (userPP : ℚ) (prevRow : Option (Option ℚ)) (d : ℚ) :
    notableInsert selectedScoreId updates userPP prevRow = some d ↔
      (0 < selectedScoreId ∧
       ∃ frontPP rest, updates = frontPP :: rest ∧
         userPP * s_notableEventRatingThreshold < frontPP ∧
         ∃ p, prevRow = some (some p) ∧
           s_notableEventRatingDifferenceMinimum ≤ userPP - p ∧ d = userPP - p) := by
  rcases updates with _ | ⟨frontPP, rest⟩
  · simp [notableInsert]
  · unfold notableInsert
    by_cases hc : 0 < selectedScoreId ∧ userPP * s_notableEventRatingThreshold < frontPP
    · rcases prevRow with _ | pcol
      · simp [hc]
      · rcases pcol with _ | p
        · simp [hc]
        · by_cases hd : userPP - p < s_notableEventRatingDifferenceMinimum
          · simp only [hc, and_self, if_true, hd]
            constructor
            · intro h; exact absurd h (by simp)
            · rintro ⟨-, f, r, hfr, -, q, hq, hge, -⟩
              cases hq
              exact absurd hge (not_le.mpr hd)
          · simp only [hc, and_self, if_true, hd, if_false, Option.some.injEq]
            constructor
            · rintro rfl
              exact ⟨trivial, frontPP, rest, rfl, hc.2, p, rfl, not_lt.mp hd, rfl⟩
            · rintro ⟨-, f, r, hfr, -, q, hq, -, rfl⟩
              cases hq
              rfl
    · simp only [hc, if_false, reduceCtorEq, false_iff]
      rintro ⟨h1, f, r, hfr, hlt, -⟩
      cases hfr
      exact hc ⟨h1, hlt⟩

/-- Claim C6: a queried row whose beatmap is blacklisted, still missing
after the lazy load, or of out-of-window ranked status is skipped: it
yields no pp record and no staged update. -/
theorem skipped_rows_contribute_nothing (env : Env)
    (computePP : ScoreRow → Beatmap → ℚ) (selectedScoreId : ℤ) (r : ScoreRow)
    (h : r.beatmapId ∈ env.blacklist ∨
         lookupBeatmap env r.beatmapId = Option.none ∨
         ∃ b, lookupBeatmap env r.beatmapId = some b ∧
           (b.rankedStatus < env.minRankedStatus ∨ env.maxRankedStatus < b.rankedStatus)) :
    processRow env computePP selectedScoreId r = Option.none ∧
    ∀ rows, userRecords env computePP selectedScoreId (r :: rows) =
              userRecords env computePP selectedScoreId rows ∧
            stagedUpdates env computePP selectedScoreId (r :: rows) =
              stagedUpdates env computePP selectedScoreId rows := by
  have hskip : processRow env computePP selectedScoreId r = Option.none := by
    unfold processRow
    rcases h with hb | hm | ⟨b, hb, hr⟩
    · simp [hb]
    · by_cases hbl : r.beatmapId ∈ env.blacklist
      · simp [hbl]
      · simp [hbl, hm]
    · by_cases hbl : r.beatmapId ∈ env.blacklist
      · simp [hbl]
      · simp [hbl, hb, hr]
  refine ⟨hskip, fun rows => ⟨?_, ?_⟩⟩
  · unfold userRecords
    rw [List.filterMap_cons]
    simp [hskip]
  · unfold stagedUpdates
    rw [List.filterMap_cons]
    simp [hskip]

/-- Witness for C6: a blacklisted row on a concrete environment is
skipped and contributes nothing. -/
theorem skipped_rows_contribute_nothing_witness :
    processRow ⟨[42], fun _ => Option.none, fun _ => Option.none, 1, 2⟩ (fun _ _ => 0) 0
        ⟨1, 1, 42, 0, 0, 0, 0, 0, 0, 0, 0, EMods.none, Option.none⟩ = Option.none ∧
    ∀ rows,
      userRecords ⟨[42], fun _ => Option.none, fun _ => Option.none, 1, 2⟩ (fun _ _ => 0) 0
          (⟨1, 1, 42, 0, 0, 0, 0, 0, 0, 0, 0, EMods.none, Option.none⟩ :: rows) =
        userRecords ⟨[42], fun _ => Option.none, fun _ => Option.none, 1, 2⟩ (fun _ _ => 0) 0 rows ∧
      stagedUpdates ⟨[42], fun _ => Option.none, fun _ => Option.none, 1, 2⟩ (fun _ _ => 0) 0
          (⟨1, 1, 42, 0, 0, 0, 0, 0, 0, 0, 0, EMods.none, Option.none⟩ :: rows) =
        stagedUpdates ⟨[42], fun _ => Option.none, fun _ => Option.none, 1, 2⟩ (fun _ _ => 0) 0 rows :=
  skipped_rows_contribute_nothing
    ⟨[42], fun _ => Option.none, fun _ => Option.none, 1, 2⟩ (fun _ _ => 0) 0
    ⟨1, 1, 42, 0, 0, 0, 0, 0, 0, 0, 0, EMods.none, Option.none⟩
    (Or.inl (by decide))

/-!
Orchestrator: `CProcessor::ProcessAllUsers` and
`CProcessor::PollAndProcessNewScores` (Processor.cpp).
-/

/-- Embeds `static const s32 userIdStep = 10000`. -/
def userIdStep : ℤ := 10000

/-- The user ids dispatched by one step of `ProcessAllUsers`: the query
``WHERE `user_id` BETWEEN begin AND end`` with `end = begin + userIdStep`;
SQL `BETWEEN` is inclusive on both bounds. -/
def dispatchedInStep (ids : List ℤ) (b : ℤ) : List ℤ :=
  ids.filter (fun u => decide (b ≤ u ∧ u ≤ b + userIdStep))

/-- Observable actions of the full-reprocessing driver: enqueueing a user,
draining the pool and the pending queries, persisting the checkpoint. -/
inductive Event where
  | dispatch (userId : ℤ)
  | waitIdle
  | store (value : ℤ)
deriving DecidableEq

/-- The checkpoint value persisted at the end of a step that started at
`b`: the code advances `begin += userIdStep` and then stores it. -/
def checkpointAfterStep (b : ℤ) : ℤ := b + userIdStep

/-- One step of the `ProcessAllUsers` loop, as the ordered actions it
performs: dispatch every queried user, wait until the pool is idle and no
queries are pending, then store the advanced checkpoint. -/
def stepTrace (ids : List ℤ) (b : ℤ) : List Event :=
  (dispatchedInStep ids b).map Event.dispatch ++
    [Event.waitIdle, Event.store (checkpointAfterStep b)]

/-- The `while (begin <= maxUserId)` loop of `ProcessAllUsers`. -/
def stepsLoop (ids : List ℤ) (b maxUserId : ℤ) : List Event :=
  if b ≤ maxUserId then
    stepTrace ids b ++ stepsLoop ids (b + userIdStep) maxUserId
  else []
termination_by (maxUserId + 1 - b).toNat
decreasing_by simp_wf; simp only [userIdStep]; omega

/-- Embeds `CProcessor::RetrieveCount`: the stored counter, `-1` when the
`osu_counts` row is absent or NULL. -/
def RetrieveCount (stored : Option ℤ) : ℤ := stored.getD (-1)

/-- Embeds `CProcessor::ProcessAllUsers` as its event trace: on `reProcess` the
checkpoint is zeroed and the loop starts at `0`; otherwise the loop starts
at the retrieved checkpoint, returning immediately when it is `-1`. -/
def ProcessAllUsers (reProcess : Bool) (stored : Option ℤ) (maxUserId : ℤ)
    (ids : List ℤ) : List Event :=
  if reProcess then Event.store 0 :: stepsLoop ids 0 maxUserId
  else
    let b0 := RetrieveCount stored
    if b0 = -1 then [] else stepsLoop ids b0 maxUserId

/-- Embeds `static const s64 s_lastScoreIdUpdateStep = 100`. -/
def s_lastScoreIdUpdateStep : ℕ := 100

/-- Per-score bookkeeping of `PollAndProcessNewScores`: increment
`_numScoresProcessedSinceLastStore`; when it exceeds
`s_lastScoreIdUpdateStep`, store the checkpoint and reset the counter.
Returns the new counter and whether the checkpoint was written. -/
def pollStep (c : ℕ) : ℕ × Bool :=
  if s_lastScoreIdUpdateStep < c + 1 then (0, true) else (c + 1, false)

/-- Processing `n` consecutive new scores starting from counter `c`:
the final counter and the number of checkpoint writes. -/
def runPoll : ℕ → ℕ → ℕ × ℕ
  | c, 0 => (c, 0)
  | c, n + 1 =>
    let s := pollStep c
    let r := runPoll s.1 n
    (r.1, (if s.2 then 1 else 0) + r.2)

/-- Counter/store-count closed form for the poll loop. -/
theorem runPoll_mod_div (n : ℕ) : ∀ c, c ≤ 100 →
    runPoll c n = ((c + n) % 101, (c + n) / 101) := by
  induction n with
  | zero =>
    intro c hc
    simp only [runPoll, Prod.mk.injEq]
    omega
  | succ n ih =>
    intro c hc
    by_cases h : s_lastScoreIdUpdateStep < c + 1
    · have hc100 : c = 100 := by
        simp only [s_lastScoreIdUpdateStep] at h
        omega
      subst hc100
      simp only [runPoll, pollStep, if_pos h, ih 0 (by omega), if_true, Prod.mk.injEq]
      omega
    · have hc1 : c + 1 ≤ 100 := by
        simp only [s_lastScoreIdUpdateStep] at h
        omega
      simp only [runPoll, pollStep, if_neg h, ih (c + 1) hc1, Bool.false_eq_true,
        if_false, zero_add, Prod.mk.injEq]
      omega

/-- Claim C7 counterexample: with the stats table containing user id
`10000`, the step starting at `0` dispatches it although `10000` is not in
the half-open range `[0, 10000)`, and the next step starting at `10000`
dispatches it again — a boundary id is dispatched in two consecutive
steps. -/
theorem boundary_user_dispatched_twice :
    (10000 : ℤ) ∈ dispatchedInStep [10000] 0 ∧
    (10000 : ℤ) ∈ dispatchedInStep [10000] 10000 ∧
    ¬((10000 : ℤ) < 0 + 10000) := by
  refine ⟨?_, ?_, by omega⟩ <;> decide

/-- Claim C7 (amended): each step dispatches exactly the queried user ids
in the closed interval `[begin, begin + 10000]` (SQL `BETWEEN` is
inclusive), so an id equal to a step boundary is dispatched in both
adjacent steps. -/
theorem dispatch_step_closed_interval (ids : List ℤ) (b u : ℤ) :
    u ∈ dispatchedInStep ids b ↔ u ∈ ids ∧ b ≤ u ∧ u ≤ b + userIdStep := by
  simp [dispatchedInStep, List.mem_filter]

/-- Claim C8 counterexample: starting from a freshly reset counter,
processing `100` new scores writes the checkpoint zero times (the claim
asserts a write once the count reaches `100`); the write happens on the
`101`-st score. -/
theorem no_checkpoint_after_100_scores :
    (runPoll 0 100).2 = 0 ∧ (runPoll 0 101).2 = 1 := by
  constructor <;> decide

/-- Claim C8 (amended): the checkpoint is written when the counter
exceeds `100`, i.e. on every `101`-st processed score: over `n` scores
from a reset counter there are `n / 101` writes and the counter ends at
`n % 101`. -/
theorem checkpoint_every_101_scores (n : ℕ) :
    runPoll 0 n = (n % 101, n / 101) := by
  have h := runPoll_mod_div n 0 (by omega)
  simpa using h

/-- Claim C9: a completed step of `ProcessAllUsers` persists exactly
`begin + 10000`, strictly greater than the step's starting checkpoint, and
the store event only comes after the wait-for-idle event, which itself
follows all dispatches of the step. -/
theorem checkpoint_step_advances (ids : List ℤ) (b : ℤ) :
    checkpointAfterStep b = b + 10000 ∧
    b < checkpointAfterStep b ∧
    ∃ pre, stepTrace ids b = pre ++ [Event.waitIdle, Event.store (checkpointAfterStep b)] ∧
      ∀ e ∈ pre, ∃ u, e = Event.dispatch u := by
  refine ⟨rfl, by simp only [checkpointAfterStep, userIdStep]; omega,
    (dispatchedInStep ids b).map Event.dispatch, rfl, ?_⟩
  intro e he
  rcases List.mem_map.mp he with ⟨u, _, rfl⟩
  exact ⟨u, rfl⟩

/-- Claim C10: invoked with `reProcess = false` and no stored
`last_user_id` counter (retrieve yields `-1`), `ProcessAllUsers` returns
immediately: no dispatch, no wait, no checkpoint write. -/
theorem process_all_users_absent_checkpoint_returns (maxUserId : ℤ) (ids : List ℤ) :
    ProcessAllUsers false Option.none maxUserId ids = [] := by
  simp [ProcessAllUsers, RetrieveCount]

/-- Witness for C9 at a concrete step: starting checkpoint `0`, one user
id `5` in the table. -/
theorem checkpoint_step_advances_witness :
    checkpointAfterStep 0 = 0 + 10000 ∧
    (0 : ℤ) < checkpointAfterStep 0 ∧
    ∃ pre, stepTrace [5] 0 = pre ++ [Event.waitIdle, Event.store (checkpointAfterStep 0)] ∧
      ∀ e ∈ pre, ∃ u, e = Event.dispatch u :=
  checkpoint_step_advances [5] 0
